import Mathlib

/-!
Verification of the DisciteAI backend AI service (tutoring-session orchestrator).

This file shallowly embeds the Python source under `src/app` into Lean:
text is `List Char`, stateful database code is explicit state passing over a
`Db` record, external collaborators (Progress API, Gemini) are oracles passed
in an `Env`, and fallible code returns `Except`/`Option`.  Definitions follow
the source files:

* `src/app/services/completion_detector.py`  (marker detection / stripping)
* `src/app/services/context_builder.py`      (prompt building, truncation)
* `src/app/services/dotnet_client.py`        (Progress API client)
* `src/app/utils/retry.py`                   (retry decorator)
* `src/app/services/gemini_client.py`        (conversation model client)
* `src/app/services/session_manager.py`      (session orchestrator)

Theorems about the claims of the specification follow the definitions.
-/

namespace DisciteAI

/-! ### Python text primitives

Python's `re` module class `\s` matches (at least) the six ASCII whitespace
characters; we model that ASCII core, which is the fragment the service's
texts exercise. -/

/-- Characters matched by the regex class used in `completion_detector.py`
(`\n\s*\n\s*\n`): space, tab, newline, carriage return, vertical tab, form feed. -/
def isPyWs (c : Char) : Bool :=
  c = ' ' || c = '\t' || c = '\n' || c = '\r' || c = '\x0b' || c = '\x0c'

/-- Python's substring test `needle in hay` (`True` when `needle` occurs
contiguously in `hay`; the empty needle occurs everywhere). -/
def hasSubstr (hay needle : List Char) : Bool :=
  match hay with
  | [] => needle.isEmpty
  | _ :: t => needle.isPrefixOf hay || hasSubstr t needle

/-- Scanner for Python's `str.replace(m, "")`: at each position, if the
(nonempty) pattern `m` starts here, delete it (skipping `m.length` characters,
so occurrences are consumed left to right without overlap) and continue after
it; otherwise keep the character.  The `Nat` argument counts characters of a
matched occurrence still to be deleted. -/
def replaceAllAux (m : List Char) : Nat → List Char → List Char
  | _, [] => []
  | 0, c :: t =>
    if m.isPrefixOf (c :: t) then replaceAllAux m (m.length - 1) t
    else c :: replaceAllAux m 0 t
  | j + 1, _ :: t => replaceAllAux m j t

/-- Python's `s.replace(m, "")` for a nonempty pattern `m` (the configured
completion marker is nonempty; for the empty pattern we return `s` unchanged,
a case the source never reaches). -/
def replaceAll (m s : List Char) : List Char :=
  if m.isEmpty then s else replaceAllAux m 0 s

/-- State machine for `re.sub(r'\n\s*\n\s*\n', '\n\n', s)`.

The regex scans left to right; a match can only start at a `'\n'`.  With
backtracking, a match starting at the first newline of a maximal whitespace
run that contains `k ≥ 3` newlines extends exactly to the *last* newline of
that run (the greedy `\s*` pushes the final `\n` as far right as possible),
and the whole span is replaced by two newlines; scanning resumes after it.
Runs with at most two newlines are left unchanged.

`none` is the scanning state; `some j` means a matched span is being consumed
and `j` of its newlines are still ahead (only whitespace can occur before
them, since all `j` lie in the same whitespace run). -/
def collapseNlAux : Option Nat → List Char → List Char
  | _, [] => []
  | none, c :: t =>
    if c = '\n' then
      if 3 ≤ 1 + (t.takeWhile isPyWs).count '\n' then
        '\n' :: '\n' :: collapseNlAux (some ((t.takeWhile isPyWs).count '\n')) t
      else '\n' :: collapseNlAux none t
    else c :: collapseNlAux none t
  | some j, c :: t =>
    if c = '\n' then
      if j = 1 then collapseNlAux none t else collapseNlAux (some (j - 1)) t
    else collapseNlAux (some j) t

/-- `re.sub(r'\n\s*\n\s*\n', '\n\n', s)` from `remove_completion_marker`. -/
def collapseNewlines (s : List Char) : List Char :=
  collapseNlAux none s

/-- Python's `str.strip()`: drop leading and trailing whitespace. -/
def pyStrip (s : List Char) : List Char :=
  ((s.dropWhile isPyWs).reverse.dropWhile isPyWs).reverse

/-! ### Completion detector (`src/app/services/completion_detector.py`)

The marker comes from `settings.completion_marker` (`src/app/config.py`);
all functions are parameterized by it. -/

/-- Default of `settings.completion_marker` in `config.py`. -/
def completion_marker : String := "\x7bTOPIC_COMPLETED\x7d"

/-- The configured marker as a character list. -/
def defaultMarker : List Char := completion_marker.toList

/-- `CompletionDetector.is_topic_completed`: `False` on empty text, else the
substring test for the marker. -/
def is_topic_completed (marker text : List Char) : Bool :=
  if text.isEmpty then false else hasSubstr text marker

/-- `CompletionDetector.remove_completion_marker`: unchanged when the text is
empty or lacks the marker; otherwise remove every scanned occurrence, collapse
newline runs, and strip outer whitespace. -/
def remove_completion_marker (marker text : List Char) : List Char :=
  if text.isEmpty || !hasSubstr text marker then text
  else pyStrip (collapseNewlines (replaceAll marker text))

/-- `CompletionDetector.extract_completion_info`. -/
def extract_completion_info (marker text : List Char) : Bool × List Char :=
  (is_topic_completed marker text, remove_completion_marker marker text)

/-- `CompletionDetector.validate_completion_criteria` (Python ints; the
`required_correct` parameter defaults to 2 at the call site). -/
def validate_completion_criteria (correct_answers total_questions required_correct : Int) : Bool :=
  if total_questions < 3 then false else required_correct ≤ correct_answers

/-! ### Newline-run bookkeeping

`okFrom k s` checks that `s` contains no run of three consecutive newlines,
given that `k` newlines immediately precede it. -/

/-- No run of three consecutive newlines occurs, with `k` newlines already
immediately behind the current position. -/
def okFrom : Nat → List Char → Bool
  | _, [] => true
  | k, c :: t => if c = '\n' then decide (k + 1 < 3) && okFrom (k + 1) t else okFrom 0 t

/-- Number of newlines in the leading whitespace run. -/
def nlRun (s : List Char) : Nat :=
  (s.takeWhile isPyWs).count '\n'

/-! ### Data transfer objects (`src/app/schemas/session.py`) -/

/-- `UserContextDTO`: proficiency level, globally completed topics, struggles. -/
structure UserContextDTO where
  user_level : Option String
  completed_topic_ids : List Int
  struggle_topics : List String
deriving DecidableEq, Repr

/-- `TopicDetailsDTO`: topic metadata from the Progress API. -/
structure TopicDetailsDTO where
  id : Int
  title : String
  description : String
  prompt_template : Option String
  course_id : Int
  course_title : String
  learning_objectives : Option String
deriving DecidableEq, Repr

/-- One entry of `CourseProgressDTO.completed_topics`. -/
structure CompletedTopicInfoDTO where
  id : Int
  title : String
deriving DecidableEq, Repr

/-- `CourseProgressDTO` (per-course progress; the float percentage and the
last-access timestamp carry no information the claims touch and are omitted). -/
structure CourseProgressDTO where
  user_id : Int
  course_id : Int
  course_title : String
  completed_topics_count : Int
  total_topics_count : Int
  completed_topics : List CompletedTopicInfoDTO
deriving DecidableEq, Repr

/-! ### Context builder (`src/app/services/context_builder.py`) -/

/-- ASCII case folding of one character (Python `str.lower` restricted to the
ASCII range the difficulty dict distinguishes). -/
def py_lower_char (c : Char) : Char :=
  if 'A' ≤ c && c ≤ 'Z' then Char.ofNat (c.toNat + 32) else c

/-- Python `str.lower` on the ASCII fragment. -/
def py_lower (s : String) : String := String.mk (s.toList.map py_lower_char)

/-- The lookup dict of `_get_difficulty_description`. -/
def level_map : List (String × String) :=
  [("beginner", "beginner"), ("novice", "beginner"), ("intermediate", "intermediate"),
   ("advanced", "advanced"), ("expert", "advanced")]

/-- `ContextBuilder._get_difficulty_description`: a missing context or a falsy
(absent or empty) stored level yields the wide default; otherwise the
lowercased level is looked up in the dict, whose `.get` default is
"intermediate". -/
def get_difficulty_description (user_context : Option UserContextDTO) : String :=
  match user_context with
  | none => "beginner to intermediate"
  | some ctx =>
    match ctx.user_level with
    | none => "beginner to intermediate"
    | some lvl =>
      if lvl.isEmpty then "beginner to intermediate"
      else ((level_map.lookup (py_lower lvl)).getD "intermediate")

/-- `ContextBuilder._format_completed_topics` (an empty id list is falsy). -/
def format_completed_topics (user_context : Option UserContextDTO) : String :=
  match user_context with
  | none => "- Completed Topics: None (this is their first topic)"
  | some ctx =>
    if ctx.completed_topic_ids.isEmpty then
      "- Completed Topics: None (this is their first topic)"
    else
      "- Completed Topics: " ++ toString ctx.completed_topic_ids.length ++
        " topics completed previously"

/-- `ContextBuilder._format_struggles` (at most three labels are shown). -/
def format_struggles (user_context : Option UserContextDTO) : String :=
  match user_context with
  | none => "- Previous Difficulties: None recorded"
  | some ctx =>
    if ctx.struggle_topics.isEmpty then "- Previous Difficulties: None recorded"
    else "- Previous Difficulties: " ++ String.intercalate ", " (ctx.struggle_topics.take 3)

/-- `ContextBuilder._add_learning_objectives` (absent or empty is falsy). -/
def add_learning_objectives (objectives : Option String) : String :=
  match objectives with
  | none => ""
  | some o => if o.isEmpty then "" else "LEARNING OBJECTIVES:\n" ++ o ++ "\n"

/-- Substitution environment of `_apply_template` (its eight template keys). -/
def template_subst (topic : TopicDetailsDTO)
    (difficulty completed struggles marker : String) : String → Option String
  | "course_title" => some topic.course_title
  | "topic_title" => some topic.title
  | "topic_description" => some topic.description
  | "learning_objectives" => some (topic.learning_objectives.getD "")
  | "user_level" => some difficulty
  | "completed_topics" => some completed
  | "struggles" => some struggles
  | "completion_marker" => some marker
  | _ => none

/-- Exceptions raised by `str.format` on the template fragment the prompt
builder uses: `keyError` for a name outside the substitution dict (Python's
positional and format-spec placeholders raise other uncaught exception
classes; they are conflated here, every one aborting the build the same way),
`valueError` for an unterminated placeholder or a lone closing brace. -/
inductive FormatError
  | keyError
  | valueError
deriving DecidableEq, Repr

/-- Python `str.format` with named placeholders, modelled for the fragment the
prompt templates use: a brace-delimited name is replaced via `subst`; an
unknown name raises `KeyError`; an unterminated placeholder or a bare closing
brace raises `ValueError`.  The `\x7b\x7b`/`\x7d\x7d` escapes are not
modelled. -/
def formatNamed (subst : String → Option String) :
    List Char → Except FormatError (List Char)
  | [] => Except.ok []
  | '\x7b' :: t =>
    let name := t.takeWhile (fun c => c ≠ '\x7d')
    match h : t.dropWhile (fun c => c ≠ '\x7d') with
    | '\x7d' :: rest =>
      match subst (String.mk name) with
      | some v => (formatNamed subst rest).map (fun r => v.toList ++ r)
      | none => Except.error FormatError.keyError
    | _ => Except.error FormatError.valueError
  | '\x7d' :: _ => Except.error FormatError.valueError
  | c :: t => (formatNamed subst t).map (fun r => c :: r)
termination_by s => s.length
decreasing_by
  · have hle : (t.dropWhile (fun c => c ≠ '\x7d')).length ≤ t.length :=
      (List.dropWhile_suffix _).length_le
    rw [h] at hle
    simp at hle ⊢
    omega
  · simp

/-- The built-in default prompt of `ContextBuilder.build_system_prompt`
(the big f-string). -/
def default_system_prompt (marker : String) (topic : TopicDetailsDTO)
    (difficulty completed struggles : String) : String :=
  "You are an expert tutor specialized in " ++ topic.course_title ++
  ".\n\nCURRENT TOPIC: " ++ topic.title ++
  "\n\nTOPIC DESCRIPTION:\n" ++ topic.description ++
  "\n\n" ++ add_learning_objectives topic.learning_objectives ++
  "\n\nSTUDENT CONTEXT:\n- Learning Level: " ++ difficulty ++
  "\n" ++ completed ++
  "\n" ++ struggles ++
  "\n\nYOUR TEACHING APPROACH:\n" ++
  "1. Start by explaining the concept clearly and concisely, adapting your explanation to the student\x27s level\n" ++
  "2. Provide practical, real-world examples that illustrate the concept\n" ++
  "3. Use analogies when helpful to make complex ideas more relatable\n" ++
  "4. Ask 3 progressive questions to validate the student\x27s understanding:\n" ++
  "   - First question: Basic comprehension\n" ++
  "   - Second question: Application of the concept\n" ++
  "   - Third question: Analysis or synthesis\n\n" ++
  "IMPORTANT INSTRUCTIONS:\n" ++
  "- Adapt your language and examples to the student\x27s " ++ difficulty ++ " level\n" ++
  "- Be encouraging and supportive\n" ++
  "- If the student struggles, provide hints rather than direct answers\n" ++
  "- After each student answer, provide feedback before moving to the next question\n" ++
  "- When the student correctly answers at least 2 out of 3 questions, include the marker " ++
    marker ++ " in your response\n" ++
  "- Do not move on to unrelated topics - stay focused on: " ++ topic.title ++
  "\n- Keep explanations clear, concise, and engaging\n\n" ++
  "Begin by introducing the topic and providing your explanation."

/-- Uncaught crashes out of `ContextBuilder.build_system_prompt` on a
malformed custom template.  An unknown placeholder raises `KeyError`, whose
handler calls `build_system_prompt` again with `topic.prompt_template` still
set — the same branch runs again, so the call recurses until Python's
`RecursionError`; a malformed placeholder raises `ValueError`, which the
`except KeyError` does not catch.  Either way the exception propagates to the
orchestrator before any database write. -/
inductive PromptCrash
  | recursionError
  | valueError
deriving DecidableEq, Repr

/-- `ContextBuilder.build_system_prompt`: with no (or a falsy empty) custom
template the default prompt is built; a (truthy) custom template is applied
with the eight substitution keys, and a malformed template crashes the call
(see `PromptCrash`), so the result is an `Except`. -/
def build_system_prompt (marker : String) (topic : TopicDetailsDTO)
    (user_context : Option UserContextDTO) : Except PromptCrash String :=
  let difficulty := get_difficulty_description user_context
  let completed := format_completed_topics user_context
  let struggles := format_struggles user_context
  match topic.prompt_template with
  | some tpl =>
    if tpl.isEmpty then
      Except.ok (default_system_prompt marker topic difficulty completed struggles)
    else
      match formatNamed (template_subst topic difficulty completed struggles marker)
          tpl.toList with
      | Except.ok r => Except.ok (String.mk r)
      | Except.error FormatError.keyError => Except.error PromptCrash.recursionError
      | Except.error FormatError.valueError => Except.error PromptCrash.valueError
  | none => Except.ok (default_system_prompt marker topic difficulty completed struggles)

/-! ### Model enums (`src/app/models/chat_session.py`) -/

/-- `SessionStatus`. -/
inductive SessionStatus
  | active
  | completed
  | abandoned
deriving DecidableEq, Repr

/-- `MessageRole`. -/
inductive MessageRole
  | system
  | user
  | assistant
deriving DecidableEq, Repr

/-- Default of `settings.max_conversation_history` in `config.py`. -/
def max_conversation_history : Nat := 50

/-- `ContextBuilder.truncate_history`: keep the most recent `max_messages`
entries (`messages[-max_messages:]`); `none` selects the configured default. -/
def truncate_history (messages : List (MessageRole × String))
    (max_messages : Option Nat) : List (MessageRole × String) :=
  let m := max_messages.getD max_conversation_history
  if messages.length ≤ m then messages else messages.drop (messages.length - m)

/-! ### Retry policy (`src/app/utils/retry.py`) -/

/-- Outcome of one invocation of a wrapped external call: success, an error of
the retryable classes (`httpx.HTTPError`, `httpx.TimeoutException`,
`ConnectionError`), or any other exception. -/
inductive CallOutcome (α : Type)
  | ok (a : α)
  | transientErr
  | otherErr
deriving DecidableEq, Repr

/-- The attempt loop of `retry_with_backoff`: attempts are numbered from 1; a
retryable error on the final attempt is re-raised; a non-retryable error
propagates immediately; the sleeps are timing-only and not modelled.  The
second argument counts remaining attempts (`max_attempts` at entry; `0` is
unreachable for the positive `max_attempts` used at every call site, where the
Python loop body would never run). -/
def retryLoop (f : Nat → CallOutcome α) : Nat → Nat → CallOutcome α
  | _, 0 => CallOutcome.transientErr
  | attempt, rem + 1 =>
    match f attempt with
    | CallOutcome.ok a => CallOutcome.ok a
    | CallOutcome.otherErr => CallOutcome.otherErr
    | CallOutcome.transientErr =>
      match rem with
      | 0 => CallOutcome.transientErr
      | r + 1 => retryLoop f (attempt + 1) (r + 1)

/-- `retry_with_backoff(max_attempts = n)` applied to an operation whose
`i`-th invocation yields `f i`. -/
def retry_with_backoff (maxAttempts : Nat) (f : Nat → CallOutcome α) : CallOutcome α :=
  retryLoop f 1 maxAttempts

/-! ### Progress API client (`src/app/services/dotnet_client.py`)

Each method's body wraps its HTTP call in its own `try/except` catching
`httpx.HTTPStatusError`, `httpx.RequestError` and `Exception`, returning the
degraded value; consequently no exception ever escapes the body into the
`@retry_with_backoff(max_attempts=5, base_delay=1.0)` decorator. -/

/-- Body of `DotNetClient.get_user_context` on a given attempt. -/
def get_user_context_body (response : Nat → CallOutcome UserContextDTO)
    (attempt : Nat) : CallOutcome (Option UserContextDTO) :=
  match response attempt with
  | CallOutcome.ok d => CallOutcome.ok (some d)
  | CallOutcome.transientErr => CallOutcome.ok none
  | CallOutcome.otherErr => CallOutcome.ok none

/-- `DotNetClient.get_user_context` as deployed (body under the decorator). -/
def get_user_context (response : Nat → CallOutcome UserContextDTO) :
    CallOutcome (Option UserContextDTO) :=
  retry_with_backoff 5 (get_user_context_body response)

/-- Body of `DotNetClient.get_topic_details` on a given attempt. -/
def get_topic_details_body (response : Nat → CallOutcome TopicDetailsDTO)
    (attempt : Nat) : CallOutcome (Option TopicDetailsDTO) :=
  match response attempt with
  | CallOutcome.ok d => CallOutcome.ok (some d)
  | CallOutcome.transientErr => CallOutcome.ok none
  | CallOutcome.otherErr => CallOutcome.ok none

/-- `DotNetClient.get_topic_details` as deployed (body under the decorator). -/
def get_topic_details (response : Nat → CallOutcome TopicDetailsDTO) :
    CallOutcome (Option TopicDetailsDTO) :=
  retry_with_backoff 5 (get_topic_details_body response)

/-- Body of `DotNetClient.notify_topic_completion` on a given attempt
(`True` on 2xx, `False` on any failure). -/
def notify_topic_completion_body (response : Nat → CallOutcome Unit)
    (attempt : Nat) : CallOutcome Bool :=
  match response attempt with
  | CallOutcome.ok _ => CallOutcome.ok true
  | CallOutcome.transientErr => CallOutcome.ok false
  | CallOutcome.otherErr => CallOutcome.ok false

/-- `DotNetClient.notify_topic_completion` as deployed. -/
def notify_topic_completion (response : Nat → CallOutcome Unit) : CallOutcome Bool :=
  retry_with_backoff 5 (notify_topic_completion_body response)

/-! ### Conversation model client (`src/app/services/gemini_client.py`) -/

/-- Canned acknowledgment turn inserted by `GeminiClient.start_chat`. -/
def gemini_ack : String :=
  "I understand. I\x27m ready to provide personalized training based on the context you\x27ve provided."

/-- `GeminiClient.build_history_from_messages`: System rows are skipped, User
rows map to user turns, Assistant rows to model turns, order preserved.  A
turn is a (gemini role, content) pair. -/
def build_history_from_messages (messages : List (MessageRole × String)) :
    List (String × String) :=
  match messages with
  | [] => []
  | (role, content) :: rest =>
    let gemini_role := if role = MessageRole.assistant then "model" else "user"
    if role = MessageRole.system then build_history_from_messages rest
    else (gemini_role, content) :: build_history_from_messages rest

/-- `GeminiClient.start_chat`: with a nonempty system prompt the model context
begins with a user turn carrying the prompt and the canned acknowledgment,
followed by the supplied history. -/
def gemini_start_chat (system_prompt : String) (history : List (String × String)) :
    List (String × String) :=
  if system_prompt.isEmpty then history
  else ("user", system_prompt) :: ("model", gemini_ack) :: history

/-! ### Persistence model (`src/app/models/chat_session.py`)

Rows are records; timestamps are ticks of a strictly increasing per-database
`clock` (each `datetime.utcnow()` call takes the current tick and advances
it), so the `ORDER BY timestamp` queries coincide with insertion order. -/

/-- A `chat_sessions` row. -/
structure ChatSessionRec where
  id : Nat
  user_id : Int
  topic_id : Int
  course_id : Int
  status : SessionStatus
  started_at : Nat
  completed_at : Option Nat
deriving DecidableEq, Repr

/-- A `chat_messages` row. -/
structure ChatMessageRec where
  session_id : Nat
  role : MessageRole
  content : String
  timestamp : Nat
deriving DecidableEq, Repr

/-- A `session_contexts` row (unique per session). -/
structure SessionContextRec where
  session_id : Nat
  user_level : Option String
  completed_topics_json : Option String
  struggles_json : Option String
  course_title : String
  topic_title : String
  learning_objectives : Option String
  prompt_template : Option String
deriving DecidableEq, Repr

/-- The database: the three tables, the autoincrement counter, the clock. -/
structure Db where
  sessions : List ChatSessionRec
  messages : List ChatMessageRec
  contexts : List SessionContextRec
  nextId : Nat
  clock : Nat
deriving DecidableEq, Repr

/-- The empty database. -/
def initDb : Db := ⟨[], [], [], 1, 0⟩

/-! ### Requests, responses, failures (`src/app/schemas/session.py`) -/

/-- `StartSessionRequest` (the API layer validates all three ids positive). -/
structure StartSessionRequest where
  user_id : Int
  topic_id : Int
  course_id : Int
deriving DecidableEq, Repr

/-- `SessionResponse`: note the required `initial_message` field, described as
the AI greeting issued at session creation. -/
structure SessionResponse where
  id : Nat
  user_id : Int
  topic_id : Int
  course_id : Int
  status : SessionStatus
  started_at : Nat
  completed_at : Option Nat
  initial_message : String
deriving DecidableEq, Repr

/-- `AIMessageResponse`. -/
structure AIMessageResponse where
  session_id : Nat
  ai_message : String
  topic_completed : Bool
  timestamp : Nat
deriving DecidableEq, Repr

/-- Exceptions the orchestrator can raise: `ValueError` (mapped to 400/404 by
the API layer), pydantic `ValidationError`, and the prompt-builder crashes it
does not handle (the API layer maps those to a 500). -/
inductive PyFailure
  | valueError (msg : String)
  | validationError
  | uncaught (crash : PromptCrash)
deriving DecidableEq, Repr

/-- `SessionResponse.model_validate(chat_session)`: the response model
requires `initial_message`, but the `ChatSession` ORM object carries no such
attribute, so pydantic raises a `ValidationError`. -/
def sessionResponse_model_validate (_chat_session : ChatSessionRec) :
    Except PyFailure SessionResponse :=
  Except.error PyFailure.validationError

/-- `json.dumps` on a list of ints (default separators: comma-space). -/
def json_dumps_ints (l : List Int) : String :=
  "[" ++ String.intercalate ", " (l.map toString) ++ "]"

/-- One lowercase hex digit. -/
def hexDigit (n : Nat) : Char :=
  if n < 10 then Char.ofNat (48 + n) else Char.ofNat (87 + n)

/-- Four lowercase hex digits, as in Python's `\uXXXX` escapes. -/
def hex4 (n : Nat) : List Char :=
  [hexDigit (n / 4096 % 16), hexDigit (n / 256 % 16), hexDigit (n / 16 % 16),
    hexDigit (n % 16)]

/-- JSON string-character escaping as `json.dumps` performs it with its
default `ensure_ascii=True`: two-character escapes for the quote, the
backslash and the control characters with short forms, `\uXXXX` for the other
control characters and everything past ASCII `~`, with surrogate pairs above
the basic plane. -/
def json_escape_char (c : Char) : List Char :=
  if c = '"' then ['\\', '"']
  else if c = '\\' then ['\\', '\\']
  else if c = '\n' then ['\\', 'n']
  else if c = '\t' then ['\\', 't']
  else if c = '\r' then ['\\', 'r']
  else if c = '\x08' then ['\\', 'b']
  else if c = '\x0c' then ['\\', 'f']
  else if c.toNat < 32 then '\\' :: 'u' :: hex4 c.toNat
  else if c.toNat ≤ 126 then [c]
  else if c.toNat < 65536 then '\\' :: 'u' :: hex4 c.toNat
  else
    ('\\' :: 'u' :: hex4 (55296 + (c.toNat - 65536) / 1024)) ++
      ('\\' :: 'u' :: hex4 (56320 + (c.toNat - 65536) % 1024))

/-- A JSON string literal for `s` (quote, escape each character, quote). -/
def json_quote (s : String) : String :=
  String.mk ('"' :: (s.toList.map json_escape_char).flatten ++ ['"'])

/-- `json.dumps` on a list of strings (default separators: comma-space). -/
def json_dumps_strs (l : List String) : String :=
  "[" ++ String.intercalate ", " (l.map json_quote) ++ "]"

/-! ### Collaborator environment -/

/-- External collaborators for one orchestrator operation.  `topicDetails` and
`userContext` are the post-client results of the corresponding `DotNetClient`
calls (`Option` per the soft-failure contract); `notify` is the result of
`notify_topic_completion`; `aiReply` is the Gemini reply text for the turn.
`courseProgress` is the per-course progress endpoint of the Progress API
interface — the client under `src/app` exposes no method for it, so it is
carried here only to make claims about it statable. -/
structure Env where
  topicDetails : Int → Option TopicDetailsDTO
  userContext : Int → Option UserContextDTO
  courseProgress : Int → Int → Option CourseProgressDTO
  notify : Bool
  aiReply : String

/-! ### Session orchestrator (`src/app/services/session_manager.py`) -/

/-- `SessionManager.start_session`.  The result pairs the database state after
the call with the call's outcome (the transaction commits before the response
model is built, so the writes survive the final validation failure; a
prompt-builder crash on a malformed template propagates before any write). -/
def start_session (env : Env) (request : StartSessionRequest) (db : Db) :
    Db × Except PyFailure SessionResponse :=
  match env.topicDetails request.topic_id with
  | none =>
    (db, Except.error (PyFailure.valueError "Could not fetch details for topic"))
  | some topic_details =>
    let user_context := env.userContext request.user_id
    match build_system_prompt completion_marker topic_details user_context with
    | Except.error crash => (db, Except.error (PyFailure.uncaught crash))
    | Except.ok system_prompt =>
      let chat_session : ChatSessionRec :=
        { id := db.nextId
          user_id := request.user_id
          topic_id := request.topic_id
          course_id := request.course_id
          status := SessionStatus.active
          started_at := db.clock
          completed_at := none }
      let context : SessionContextRec :=
        { session_id := chat_session.id
          user_level := match user_context with
            | some u => u.user_level
            | none => none
          completed_topics_json := match user_context with
            | some u => some (json_dumps_ints u.completed_topic_ids)
            | none => none
          struggles_json := match user_context with
            | some u => some (json_dumps_strs u.struggle_topics)
            | none => none
          course_title := topic_details.course_title
          topic_title := topic_details.title
          learning_objectives := topic_details.learning_objectives
          prompt_template := topic_details.prompt_template }
      let system_message : ChatMessageRec :=
        { session_id := chat_session.id
          role := MessageRole.system
          content := system_prompt
          timestamp := db.clock + 1 }
      let db' : Db :=
        { sessions := db.sessions ++ [chat_session]
          messages := db.messages ++ [system_message]
          contexts := db.contexts ++ [context]
          nextId := db.nextId + 1
          clock := db.clock + 2 }
      (db', sessionResponse_model_validate chat_session)

/-- `SessionManager._get_active_session`: the session with the given id whose
status is Active, if any. -/
def get_active_session (session_id : Nat) (db : Db) : Option ChatSessionRec :=
  db.sessions.find? (fun s => s.id = session_id && s.status = SessionStatus.active)

/-- `SessionManager._get_message_history`: the session's (role, content) rows
in timestamp order (list order, by clock monotonicity). -/
def message_history (session_id : Nat) (db : Db) : List (MessageRole × String) :=
  (db.messages.filter (fun m => m.session_id = session_id)).map
    (fun m => (m.role, m.content))

/-- The portion of `send_message` that prepares the fresh Gemini seed: drop
the system rows, truncate to the configured window, then drop the final entry
(the just-persisted user message) before mapping rows to model turns. -/
def model_seed (history : List (MessageRole × String)) : List (String × String) :=
  let chat_history := history.filter (fun m => m.1 ≠ MessageRole.system)
  let chat_history := truncate_history chat_history none
  build_history_from_messages chat_history.dropLast

/-- `SessionManager._complete_session`: status and completion timestamp are
set together on the session row; the completion notification result is only
logged. -/
def complete_session (env : Env) (session : ChatSessionRec) (db : Db) : Db :=
  let updated : ChatSessionRec :=
    { session with status := SessionStatus.completed, completed_at := some db.clock }
  let _success := env.notify
  { db with
      sessions := db.sessions.map (fun s => if s.id = session.id then updated else s)
      clock := db.clock + 1 }

/-- `SessionManager.send_message`.  The result pairs the database state after
the call with the call's outcome; the Gemini exchange is the `aiReply`
oracle. -/
def send_message (env : Env) (session_id : Nat) (user_message : String) (db : Db) :
    Db × Except PyFailure AIMessageResponse :=
  match get_active_session session_id db with
  | none => (db, Except.error (PyFailure.valueError "Active session not found"))
  | some session =>
    let user_msg : ChatMessageRec :=
      { session_id := session_id
        role := MessageRole.user
        content := user_message
        timestamp := db.clock }
    let db1 : Db := { db with messages := db.messages ++ [user_msg], clock := db.clock + 1 }
    let history := message_history session_id db1
    let system_prompt :=
      match history with
      | (MessageRole.system, content) :: _ => content
      | _ => ""
    let _gemini_chat := gemini_start_chat system_prompt (model_seed history)
    let ai_response_raw := env.aiReply
    let info := extract_completion_info completion_marker.toList ai_response_raw.toList
    let ai_msg : ChatMessageRec :=
      { session_id := session_id
        role := MessageRole.assistant
        content := ai_response_raw
        timestamp := db1.clock }
    let db2 : Db := { db1 with messages := db1.messages ++ [ai_msg], clock := db1.clock + 1 }
    let db3 : Db := if info.1 then complete_session env session db2 else db2
    (db3, Except.ok
      { session_id := session_id
        ai_message := String.mk info.2
        topic_completed := info.1
        timestamp := db3.clock })

/-- `SessionManager.get_session_details` is read-only: it looks up the
session, its context and its non-System messages in timestamp order and builds
a response (whose construction, like `start_session`'s, fails on the required
`initial_message` field); it performs no write. -/
def get_session_details (session_id : Nat) (db : Db) :
    Option (ChatSessionRec × Option SessionContextRec × List ChatMessageRec) :=
  match db.sessions.find? (fun s => s.id = session_id) with
  | none => none
  | some s =>
    some (s, db.contexts.find? (fun c => c.session_id = session_id),
      (db.messages.filter (fun m => m.session_id = session_id)).filter
        (fun m => m.role ≠ MessageRole.system))

/-! ### Reachable orchestrator states (spec §4.6) -/

/-- One orchestrator operation; the per-call collaborator environment is
chosen at each step. -/
inductive Step : Db → Db → Prop
  | start (env : Env) (request : StartSessionRequest) (db : Db) :
      Step db (start_session env request db).1
  | send (env : Env) (session_id : Nat) (user_message : String) (db : Db) :
      Step db (send_message env session_id user_message db).1
  | details (session_id : Nat) (db : Db) :
      Step db db

/-- Database states reachable from the empty database by orchestrator
operations. -/
inductive Reachable : Db → Prop
  | init : Reachable initDb
  | step {db db' : Db} : Reachable db → Step db db' → Reachable db'

/-- The §3 Session invariant: the completion timestamp is set exactly on
Completed sessions. -/
def completedIffStamped (db : Db) : Prop :=
  ∀ s ∈ db.sessions, s.completed_at.isSome = true ↔ s.status = SessionStatus.completed

/-! ### Concrete fixtures for counterexamples and witnesses -/

deriving instance DecidableEq for Except

/-- A topic (scenario A: topic 10 of course 5) with no custom template. -/
def t0 : TopicDetailsDTO :=
  { id := 10, title := "Recursion", description := "Learn recursion.",
    prompt_template := none, course_id := 5, course_title := "Algorithms",
    learning_objectives := none }

/-- A user context: beginner, globally completed topics 1 and 2. -/
def u0 : UserContextDTO :=
  { user_level := some "beginner", completed_topic_ids := [1, 2], struggle_topics := [] }

/-- Scenario A request. -/
def req0 : StartSessionRequest := { user_id := 1, topic_id := 10, course_id := 5 }

/-- Environment with topic 10 available, user context `u0`, no course
progress. -/
def envA : Env :=
  { topicDetails := fun i => if i = 10 then some t0 else none
    userContext := fun _ => some u0
    courseProgress := fun _ _ => none
    notify := true
    aiReply := "ok" }

/-- A course-progress record reporting topic 42 completed in course 5. -/
def cp0 : CourseProgressDTO :=
  { user_id := 1, course_id := 5, course_title := "Algorithms",
    completed_topics_count := 1, total_topics_count := 9,
    completed_topics := [{ id := 42, title := "Sorting" }] }

/-- `envA` with the course-progress endpoint answering `cp0`. -/
def envB : Env :=
  { envA with courseProgress := fun _ _ => some cp0 }

/-- A database holding one already-Completed session. -/
def dbC : Db :=
  { sessions := [{ id := 1, user_id := 1, topic_id := 10, course_id := 5,
                   status := SessionStatus.completed, started_at := 0, completed_at := some 3 }]
    messages := []
    contexts := []
    nextId := 2
    clock := 4 }

/-- A 52-entry non-system history (two more than the configured window). -/
def history52 : List (MessageRole × String) := List.replicate 52 (MessageRole.user, "m")

/-- A text in which removing the marker re-creates the marker: the embedded
occurrence is flanked by the two halves of another copy. -/
def cexText : List Char := "\x7bTOPIC_COMPL\x7bTOPIC_COMPLETED\x7dETED\x7d".toList

/-- A marked AI reply with a four-newline run. -/
def replyW : List Char := "Done: \x7bTOPIC_COMPLETED\x7d\n\n\n\nBye".toList

/-- A plainly marked AI reply. -/
def replyV : List Char := "All good \x7bTOPIC_COMPLETED\x7d!".toList

/-- A user context for the retry scenario. -/
def uc0 : UserContextDTO :=
  { user_level := some "beginner", completed_topic_ids := [], struggle_topics := [] }

/-- Attempt outcomes of the user-context HTTP call: a transient network
failure on attempt 1, success on every later attempt. -/
def respU : Nat → CallOutcome UserContextDTO :=
  fun attempt => if attempt = 1 then CallOutcome.transientErr else CallOutcome.ok uc0

/-- Same attempt shape for the topic-details call. -/
def respT : Nat → CallOutcome TopicDetailsDTO :=
  fun attempt => if attempt = 1 then CallOutcome.transientErr else CallOutcome.ok t0

/-- Same attempt shape for the completion notification. -/
def respN : Nat → CallOutcome Unit :=
  fun attempt => if attempt = 1 then CallOutcome.transientErr else CallOutcome.ok ()

/-! ## Theorems

First the run analysis of the newline collapser, then helper lemmas about the
orchestrator's state, then one theorem per specification claim. -/

theorem nlRun_nil : nlRun ([] : List Char) = 0 := rfl

theorem nlRun_cons_nl (t : List Char) : nlRun ('\n' :: t) = nlRun t + 1 := by
  simp [nlRun, List.takeWhile_cons, isPyWs]

theorem nlRun_cons_ws_not_nl {c : Char} (t : List Char) (hw : isPyWs c = true)
    (hc : c ≠ '\n') : nlRun (c :: t) = nlRun t := by
  simp [nlRun, List.takeWhile_cons, hw, List.count_cons, hc]

theorem nlRun_cons_not_ws {c : Char} (t : List Char) (hw : isPyWs c = false) :
    nlRun (c :: t) = 0 := by
  simp [nlRun, List.takeWhile_cons, hw]

/-- A string containing three consecutive newlines fails `okFrom` at every carry. -/
theorem okFrom_eq_false_of_triple (a b : List Char) (k : Nat) :
    okFrom k (a ++ '\n' :: '\n' :: '\n' :: b) = false := by
  induction a generalizing k with
  | nil =>
    simp [okFrom, Nat.add_assoc]
  | cons c a ih =>
    by_cases hc : c = '\n' <;> simp [okFrom, hc, ih]

/-- Main run analysis of the newline collapser: in scanning state the output
never accumulates three consecutive newlines provided the carry is compatible
with the leading run, and in consuming state the same holds while the counted
newlines are still ahead inside the leading whitespace run. -/
theorem collapseNlAux_ok (s : List Char) :
    (∀ k : Nat, ((k = 0 ∧ 3 ≤ nlRun s) ∨ k + nlRun s ≤ 2) →
      okFrom k (collapseNlAux none s) = true) ∧
    (∀ j k : Nat, 1 ≤ j → nlRun s = j → k ≤ 2 →
      okFrom k (collapseNlAux (some j) s) = true) := by
  induction s with
  | nil => exact ⟨fun k _ => rfl, fun j k _ _ _ => rfl⟩
  | cons c t ih =>
    obtain ⟨ihn, ihs⟩ := ih
    constructor
    · intro k hk
      by_cases hc : c = '\n'
      · subst hc
        have hrun : nlRun ('\n' :: t) = nlRun t + 1 := nlRun_cons_nl t
        by_cases h3 : 3 ≤ 1 + (t.takeWhile isPyWs).count '\n'
        · -- collapse branch: the carry must be zero
          have hnl3 : 3 ≤ nlRun ('\n' :: t) := by
            have : nlRun t = (t.takeWhile isPyWs).count '\n' := rfl
            omega
          have hk0 : k = 0 := by
            rcases hk with ⟨h0, _⟩ | h2
            · exact h0
            · omega
          subst hk0
          have hj : 1 ≤ nlRun t := by
            have : nlRun t = (t.takeWhile isPyWs).count '\n' := rfl
            omega
          have := ihs (nlRun t) 2 hj rfl (by omega)
          simp [collapseNlAux, h3, okFrom]
          exact this
        · -- short run: emit the newline and keep scanning
          have hle : k + nlRun ('\n' :: t) ≤ 2 := by
            rcases hk with ⟨_, h0⟩ | h2
            · exfalso
              have : nlRun t = (t.takeWhile isPyWs).count '\n' := rfl
              omega
            · exact h2
          have hlt : k + 1 < 3 := by omega
          have := ihn (k + 1) (Or.inr (by omega))
          simp [collapseNlAux, h3, okFrom, hlt]
          exact this
      · -- non-newline characters reset the carry
        have := ihn 0 (by
          rcases Nat.lt_or_ge (nlRun t) 3 with h | h
          · exact Or.inr (by omega)
          · exact Or.inl ⟨rfl, h⟩)
        simp [collapseNlAux, hc, okFrom]
        exact this
    · intro j k hj hnl hk
      by_cases hc : c = '\n'
      · subst hc
        have hrun : nlRun t + 1 = j := by
          have := nlRun_cons_nl t
          omega
        by_cases hj1 : j = 1
        · subst hj1
          have hz : nlRun t = 0 := by omega
          have := ihn k (Or.inr (by omega))
          simp [collapseNlAux]
          exact this
        · have := ihs (j - 1) k (by omega) (by omega) hk
          simp [collapseNlAux, hj1]
          exact this
      · -- the counted newlines lie inside the leading whitespace run, so any
        -- character reached before them is whitespace
        have hw : isPyWs c = true := by
          by_contra hfw
          have : nlRun (c :: t) = 0 :=
            nlRun_cons_not_ws t (Bool.eq_false_iff.mpr hfw)
          omega
        have hnt : nlRun t = j := by
          have := nlRun_cons_ws_not_nl t hw hc
          omega
        have := ihs j k hj hnt hk
        simp [collapseNlAux, hc]
        exact this

/-- The collapsed text never contains three consecutive newlines. -/
theorem collapseNewlines_ok (s : List Char) : okFrom 0 (collapseNewlines s) = true := by
  rcases Nat.lt_or_ge (nlRun s) 3 with h | h
  · exact (collapseNlAux_ok s).1 0 (Or.inr (by omega))
  · exact (collapseNlAux_ok s).1 0 (Or.inl ⟨rfl, h⟩)

/-- From `okFrom` to the absence of a three-newline infix. -/
theorem not_triple_of_okFrom {l : List Char} (h : okFrom 0 l = true) :
    ¬ (['\n', '\n', '\n'] <:+: l) := by
  rintro ⟨a, b, rfl⟩
  have := okFrom_eq_false_of_triple a b 0
  simp only [List.append_assoc, List.cons_append, List.nil_append] at this h
  rw [h] at this
  cases this

/-- The stripped text is a contiguous part of the unstripped text. -/
theorem pyStrip_part_of (s : List Char) : pyStrip s <:+: s := by
  have h1 : s.dropWhile isPyWs <:+ s := List.dropWhile_suffix isPyWs
  have h2 : (s.dropWhile isPyWs).reverse.dropWhile isPyWs <:+
      (s.dropWhile isPyWs).reverse := List.dropWhile_suffix isPyWs
  have h3 : pyStrip s <+: s.dropWhile isPyWs := by
    rw [← List.reverse_suffix]
    simpa [pyStrip] using h2
  exact h3.isInfix.trans h1.isInfix


/-- Sessions present after `start_session` were already present or are the
newly created Active, unstamped session. -/
theorem start_sessions_mem (env : Env) (request : StartSessionRequest) (db : Db)
    (s : ChatSessionRec) (hs : s ∈ (start_session env request db).1.sessions) :
    s ∈ db.sessions ∨ (s.status = SessionStatus.active ∧ s.completed_at = none) := by
  cases h : env.topicDetails request.topic_id with
  | none =>
    simp [start_session, h] at hs
    exact Or.inl hs
  | some topic =>
    cases h2 : build_system_prompt completion_marker topic (env.userContext request.user_id) with
    | error crash =>
      simp [start_session, h, h2] at hs
      exact Or.inl hs
    | ok prompt =>
      simp [start_session, h, h2, List.mem_append] at hs
      rcases hs with hs | hs
      · exact Or.inl hs
      · subst hs
        exact Or.inr ⟨rfl, rfl⟩

/-- Sessions present after `send_message` were already present or carry a
Completed status together with a set completion timestamp. -/
theorem send_sessions_mem (env : Env) (session_id : Nat) (user_message : String)
    (db : Db) (s : ChatSessionRec)
    (hs : s ∈ (send_message env session_id user_message db).1.sessions) :
    s ∈ db.sessions ∨
      (s.status = SessionStatus.completed ∧ s.completed_at.isSome = true) := by
  cases h : get_active_session session_id db with
  | none =>
    simp [send_message, h] at hs
    exact Or.inl hs
  | some session =>
    simp only [send_message, h] at hs
    split at hs
    · -- completion branch: the session row is remapped
      simp only [complete_session, List.mem_map] at hs
      obtain ⟨a, ha, heq⟩ := hs
      by_cases hid : a.id = session.id
      · rw [if_pos hid] at heq
        subst heq
        exact Or.inr ⟨rfl, rfl⟩
      · rw [if_neg hid] at heq
        subst heq
        exact Or.inl ha
    · -- no completion: only messages and clock changed
      simp at hs
      exact Or.inl hs

/-- `build_history_from_messages` preserves length on system-free rows. -/
theorem bhfm_length (l : List (MessageRole × String))
    (h : ∀ m ∈ l, m.1 ≠ MessageRole.system) :
    (build_history_from_messages l).length = l.length := by
  induction l with
  | nil => rfl
  | cons hd tl ih =>
    obtain ⟨role, content⟩ := hd
    have hr : role ≠ MessageRole.system := by
      have := h (role, content) (List.mem_cons_self _ _)
      exact this
    simp only [build_history_from_messages, if_neg hr, List.length_cons]
    rw [ih (fun m hm => h m (List.mem_cons_of_mem _ hm))]

/-- C5 (counterexample).  The claim "the cleaned text contains zero
occurrences of the marker" fails: on `cexText`, whose embedded marker is
flanked by the two halves of another copy, the single-pass
`str.replace` removal re-creates an occurrence, so `extract` reports
completion but returns a cleaned text that still contains the marker. -/
theorem c5_marker_survives_extract :
    hasSubstr cexText defaultMarker = true ∧
    (extract_completion_info defaultMarker cexText).1 = true ∧
    hasSubstr (extract_completion_info defaultMarker cexText).2 defaultMarker = true ∧
    (extract_completion_info defaultMarker cexText).2 = defaultMarker := by
  decide

/-- C5 (amended).  For every text containing the configured completion marker,
`extract` returns completed = true together with a cleaned text that contains
no run of three or more consecutive newlines; the cleaned text is the
single-pass removal of the leftmost non-overlapping marker occurrences
(collapsed and trimmed) and can still contain the marker when removal
re-creates an occurrence. -/
theorem c5_extract_completed_and_collapsed (text : List Char)
    (h : hasSubstr text defaultMarker = true) :
    (extract_completion_info defaultMarker text).1 = true ∧
    ¬ (['\n', '\n', '\n'] <:+: (extract_completion_info defaultMarker text).2) := by
  have hne : text.isEmpty = false := by
    cases text with
    | nil => exact absurd h (by decide)
    | cons c t => rfl
  constructor
  · simp [extract_completion_info, is_topic_completed, hne, h]
  · have h2 : (extract_completion_info defaultMarker text).2 =
        pyStrip (collapseNewlines (replaceAll defaultMarker text)) := by
      simp [extract_completion_info, remove_completion_marker, hne, h]
    rw [h2]
    intro habs
    exact not_triple_of_okFrom
      (collapseNewlines_ok (replaceAll defaultMarker text))
      (habs.trans (pyStrip_part_of _))

/-- C5 (witness): a concrete marked reply with a four-newline run. -/
theorem c5_extract_witness :
    hasSubstr replyW defaultMarker = true ∧
    ((extract_completion_info defaultMarker replyW).1 = true ∧
      ¬ (['\n', '\n', '\n'] <:+: (extract_completion_info defaultMarker replyW).2)) :=
  ⟨by decide, c5_extract_completed_and_collapsed replyW (by decide)⟩

/-- C6 (counterexample).  `strip_marker` is not idempotent: on `cexText` the
first pass leaves exactly the marker, and the second pass removes it. -/
theorem c6_strip_not_idempotent :
    remove_completion_marker defaultMarker (remove_completion_marker defaultMarker cexText) ≠
      remove_completion_marker defaultMarker cexText := by
  decide

/-- C6 (amended).  `strip_marker` is idempotent on every text whose single
pass leaves no marker occurrence (removal can otherwise re-create one): if the
stripped text lacks the marker, stripping again returns it unchanged. -/
theorem c6_strip_idempotent_when_marker_gone (text : List Char)
    (h : hasSubstr (remove_completion_marker defaultMarker text) defaultMarker = false) :
    remove_completion_marker defaultMarker (remove_completion_marker defaultMarker text) =
      remove_completion_marker defaultMarker text := by
  generalize hy : remove_completion_marker defaultMarker text = y at h ⊢
  simp [remove_completion_marker, h]

/-- C6 (witness): a concrete marked reply strips to a marker-free text. -/
theorem c6_strip_witness :
    hasSubstr (remove_completion_marker defaultMarker replyV) defaultMarker = false ∧
    remove_completion_marker defaultMarker (remove_completion_marker defaultMarker replyV) =
      remove_completion_marker defaultMarker replyV :=
  ⟨by decide, c6_strip_idempotent_when_marker_gone replyV (by decide)⟩

/-- C7 (counterexample).  An unknown stored level does not default to
"beginner to intermediate": the dict lookup's `.get` default is
"intermediate". -/
theorem c7_unknown_level_defaults_to_intermediate :
    get_difficulty_description
        (some { user_level := some "guru", completed_topic_ids := [], struggle_topics := [] }) =
      "intermediate" ∧
    get_difficulty_description
        (some { user_level := some "guru", completed_topic_ids := [], struggle_topics := [] }) ≠
      "beginner to intermediate" := by
  decide

/-- C7 (amended).  The difficulty mapping is the fixed lookup
beginner/novice to "beginner", intermediate to "intermediate",
advanced/expert to "advanced", case-insensitive on the stored level; a
*missing* context, a missing level or an empty level yields
"beginner to intermediate", while a present but *unknown* level yields
"intermediate". -/
theorem c7_difficulty_mapping :
    get_difficulty_description none = "beginner to intermediate" ∧
    (∀ u : UserContextDTO, u.user_level = none →
      get_difficulty_description (some u) = "beginner to intermediate") ∧
    (∀ u : UserContextDTO, u.user_level = some "" →
      get_difficulty_description (some u) = "beginner to intermediate") ∧
    (∀ (u : UserContextDTO) (lvl : String), u.user_level = some lvl →
      (py_lower lvl = "beginner" ∨ py_lower lvl = "novice") →
      get_difficulty_description (some u) = "beginner") ∧
    (∀ (u : UserContextDTO) (lvl : String), u.user_level = some lvl →
      py_lower lvl = "intermediate" →
      get_difficulty_description (some u) = "intermediate") ∧
    (∀ (u : UserContextDTO) (lvl : String), u.user_level = some lvl →
      (py_lower lvl = "advanced" ∨ py_lower lvl = "expert") →
      get_difficulty_description (some u) = "advanced") ∧
    (∀ (u : UserContextDTO) (lvl : String), u.user_level = some lvl → lvl ≠ "" →
      py_lower lvl ∉ (["beginner", "novice", "intermediate", "advanced", "expert"] : List String) →
      get_difficulty_description (some u) = "intermediate") := by
  have hne : ∀ lvl : String, lvl ≠ "" → lvl.isEmpty = false := by
    intro lvl h
    cases he : lvl.isEmpty
    · rfl
    · exact absurd ((String.isEmpty_iff lvl).mp he) h
  have hpl : ∀ lvl : String, py_lower lvl ≠ "" → lvl ≠ "" := by
    intro lvl h hcon
    subst hcon
    exact h rfl
  refine ⟨rfl, ?_, ?_, ?_, ?_, ?_, ?_⟩
  · intro u hu
    simp [get_difficulty_description, hu]
  · intro u hu
    simp [get_difficulty_description, hu, String.isEmpty]
  · rintro u lvl hu (hl | hl) <;>
      simp [get_difficulty_description, hu,
        hne lvl (hpl lvl (by rw [hl]; decide)), hl, level_map] <;> decide
  · intro u lvl hu hl
    simp [get_difficulty_description, hu,
      hne lvl (hpl lvl (by rw [hl]; decide)), hl, level_map]
    decide
  · rintro u lvl hu (hl | hl) <;>
      simp [get_difficulty_description, hu,
        hne lvl (hpl lvl (by rw [hl]; decide)), hl, level_map] <;> decide
  · intro u lvl hu hlvl hnot
    simp only [List.mem_cons, List.not_mem_nil, not_or, or_false] at hnot
    obtain ⟨h1, h2, h3, h4, h5⟩ := hnot
    have b1 : (py_lower lvl == "beginner") = false := beq_eq_false_iff_ne.mpr h1
    have b2 : (py_lower lvl == "novice") = false := beq_eq_false_iff_ne.mpr h2
    have b3 : (py_lower lvl == "intermediate") = false := beq_eq_false_iff_ne.mpr h3
    have b4 : (py_lower lvl == "advanced") = false := beq_eq_false_iff_ne.mpr h4
    have b5 : (py_lower lvl == "expert") = false := beq_eq_false_iff_ne.mpr h5
    simp [get_difficulty_description, hu, hne lvl hlvl, level_map, List.lookup,
      b1, b2, b3, b4, b5]

/-- C7 (witness): the mapping applied to a concrete mixed-case known level. -/
theorem c7_difficulty_witness :
    get_difficulty_description
        (some { user_level := some "NOVICE", completed_topic_ids := [], struggle_topics := [] }) =
      "beginner" :=
  c7_difficulty_mapping.2.2.2.1
    { user_level := some "NOVICE", completed_topic_ids := [], struggle_topics := [] }
    "NOVICE" rfl (Or.inr (by decide))

/-- C4 (code bug).  On each Progress Client operation the body's own
`try/except` catches every exception and returns the degraded value, so the
retry decorator never observes a failure: a transient error on attempt 1
followed by guaranteed success from attempt 2 still yields absent/false.  The
retry policy itself, applied to the same attempt outcomes without the
swallowing body, would return the attempt-2 success — the behaviour the claim
(and the decorator applied in the source) describes. -/
theorem c4_retry_never_engages :
    get_user_context respU = CallOutcome.ok none ∧
    get_topic_details respT = CallOutcome.ok none ∧
    notify_topic_completion respN = CallOutcome.ok false ∧
    retry_with_backoff 5 respU = CallOutcome.ok uc0 ∧
    retry_with_backoff 5 respT = CallOutcome.ok t0 ∧
    retry_with_backoff 5 respN = CallOutcome.ok () := by
  decide

set_option maxRecDepth 10000 in
/-- C1 (code bug).  On scenario A's input the orchestrator commits the Active
session, the context snapshot and exactly one System message — no Assistant
greeting exists anywhere in the pipeline — and then fails with a validation
error while building the response, so the call is never successful. -/
theorem c1_start_commits_no_greeting :
    ((start_session envA req0 initDb).1.sessions.map
        (fun s => (s.id, s.status, s.completed_at))) = [(1, SessionStatus.active, none)] ∧
    ((start_session envA req0 initDb).1.messages.map
        (fun m => (m.session_id, m.role))) = [(1, MessageRole.system)] ∧
    ((start_session envA req0 initDb).1.contexts.map
        (fun c => c.session_id)) = [1] ∧
    (∀ m ∈ (start_session envA req0 initDb).1.messages, m.role ≠ MessageRole.assistant) ∧
    (start_session envA req0 initDb).2 = Except.error PyFailure.validationError := by
  decide

/-- C2 (code bug).  No `start_session` call returns a session summary at all:
a missing topic raises `ValueError`, a malformed template crashes the prompt
builder, and otherwise building `SessionResponse` from the ORM session fails
on the required `initial_message` field — so no response carrying
`initial_message` is ever produced. -/
theorem c2_no_successful_session_response :
    ∀ (env : Env) (request : StartSessionRequest) (db : Db) (r : SessionResponse),
      (start_session env request db).2 ≠ Except.ok r := by
  intro env request db r
  cases h : env.topicDetails request.topic_id with
  | none => simp [start_session, h]
  | some topic =>
    cases h2 : build_system_prompt completion_marker topic (env.userContext request.user_id) <;>
      simp [start_session, h, h2, sessionResponse_model_validate]

/-- C3 (counterexample).  Course progress is never fetched or merged: with the
course-progress endpoint reporting topic 42 completed, `start_session`
produces exactly the same result as with the endpoint absent, and the
snapshot's completed-topic list is the user context's global `[1, 2]`. -/
theorem c3_no_course_progress_merge :
    start_session envB req0 initDb = start_session envA req0 initDb ∧
    ((start_session envB req0 initDb).1.contexts.map
        (fun c => (c.completed_topics_json, c.struggles_json))) =
      [(some "[1, 2]", some "[]")] ∧
    envB.courseProgress req0.user_id req0.course_id = some cp0 ∧
    cp0.completed_topics.map (fun ct => ct.id) = [42] := by
  refine ⟨rfl, by decide, rfl, by decide⟩

/-- C3 (amended).  After the mandatory topic fetch, `start_session` consults
only the user-context collaborator (soft-failing to absent): its result is
invariant under the course-progress collaborator.  When the prompt build
succeeds (in particular whenever the topic has no custom template) the
committed snapshot stores `json.dumps` of the user context's global
completed-topic ids and struggle labels — no per-course data; when the prompt
build crashes on a malformed template, the start aborts before any write. -/
theorem c3_snapshot_from_user_context_only
    (env : Env) (cp : Int → Int → Option CourseProgressDTO)
    (request : StartSessionRequest) (db : Db) :
    (start_session { env with courseProgress := cp } request db =
      start_session env request db) ∧
    (∀ (topic : TopicDetailsDTO) (u : UserContextDTO) (prompt : String),
      env.topicDetails request.topic_id = some topic →
      env.userContext request.user_id = some u →
      build_system_prompt completion_marker topic (some u) = Except.ok prompt →
      (start_session env request db).1.contexts = db.contexts ++
        [{ session_id := db.nextId
           user_level := u.user_level
           completed_topics_json := some (json_dumps_ints u.completed_topic_ids)
           struggles_json := some (json_dumps_strs u.struggle_topics)
           course_title := topic.course_title
           topic_title := topic.title
           learning_objectives := topic.learning_objectives
           prompt_template := topic.prompt_template }]) ∧
    (∀ (topic : TopicDetailsDTO) (crash : PromptCrash),
      env.topicDetails request.topic_id = some topic →
      build_system_prompt completion_marker topic (env.userContext request.user_id) =
        Except.error crash →
      (start_session env request db).1 = db ∧
      (start_session env request db).2 = Except.error (PyFailure.uncaught crash)) := by
  refine ⟨rfl, ?_, ?_⟩
  · intro topic u prompt ht hu hp
    simp [start_session, ht, hu, hp]
  · intro topic crash ht hc
    simp [start_session, ht, hc]

/-- C3 (witness): the amended theorem applied to the concrete scenario, whose
topic has no custom template, so the prompt build succeeds with the default
prompt. -/
theorem c3_snapshot_witness :
    (start_session { envA with courseProgress := envB.courseProgress } req0 initDb =
      start_session envA req0 initDb) ∧
    (start_session envA req0 initDb).1.contexts = initDb.contexts ++
      [{ session_id := initDb.nextId
         user_level := u0.user_level
         completed_topics_json := some (json_dumps_ints u0.completed_topic_ids)
         struggles_json := some (json_dumps_strs u0.struggle_topics)
         course_title := t0.course_title
         topic_title := t0.title
         learning_objectives := t0.learning_objectives
         prompt_template := t0.prompt_template }] :=
  ⟨(c3_snapshot_from_user_context_only envA envB.courseProgress req0 initDb).1,
    (c3_snapshot_from_user_context_only envA envB.courseProgress req0 initDb).2.1 t0 u0
      (default_system_prompt completion_marker t0 (get_difficulty_description (some u0))
        (format_completed_topics (some u0)) (format_struggles (some u0)))
      rfl rfl rfl⟩

/-- Each orchestrator operation preserves the completion invariant. -/
theorem step_preserves_completedIffStamped {d d' : Db} (hstep : Step d d')
    (ih : completedIffStamped d) : completedIffStamped d' := by
  cases hstep with
  | start env request _ =>
    intro s hs
    rcases start_sessions_mem env request d s hs with hmem | ⟨h1, h2⟩
    · exact ih s hmem
    · rw [h1, h2]
      simp
  | send env session_id user_message _ =>
    intro s hs
    rcases send_sessions_mem env session_id user_message d s hs with hmem | ⟨h1, h2⟩
    · exact ih s hmem
    · rw [h1, h2]
      simp
  | details _ _ =>
    exact ih

/-- C8 (confirmed).  In every database state reachable by the orchestrator's
operations, a session's completion timestamp is set if and only if its status
is Completed: `start_session` creates Active sessions without a timestamp, and
the completion transition sets status and timestamp together. -/
theorem c8_completed_iff_stamped (db : Db) (h : Reachable db) :
    completedIffStamped db := by
  induction h with
  | init =>
    intro s hs
    simp [initDb] at hs
  | step _ hstep ih =>
    exact step_preserves_completedIffStamped hstep ih

/-- C8 (witness): the invariant holds in the state reached by one concrete
`start_session` from the empty database. -/
theorem c8_invariant_witness : completedIffStamped (start_session envA req0 initDb).1 :=
  c8_completed_iff_stamped (start_session envA req0 initDb).1
    (Reachable.step Reachable.init (Step.start envA req0 initDb))

/-- C9 (confirmed).  When every session with the requested id is non-Active,
`send_message` fails with the not-found `ValueError` and leaves the database
(sessions, transcript, context, counters) entirely unchanged. -/
theorem c9_inactive_session_rejected
    (env : Env) (session_id : Nat) (user_message : String) (db : Db)
    (h : ∀ s ∈ db.sessions, s.id = session_id → s.status ≠ SessionStatus.active) :
    (send_message env session_id user_message db).1 = db ∧
    ∃ msg, (send_message env session_id user_message db).2 =
      Except.error (PyFailure.valueError msg) := by
  have hn : get_active_session session_id db = none := by
    unfold get_active_session
    rw [List.find?_eq_none]
    intro s hs
    simp only [Bool.and_eq_true, decide_eq_true_eq, not_and]
    intro h1 h2
    exact h s hs h1 h2
  simp [send_message, hn]

/-- C9 (witness): a concrete call on an already-Completed session. -/
theorem c9_inactive_witness :
    (∀ s ∈ dbC.sessions, s.id = 1 → s.status ≠ SessionStatus.active) ∧
    ((send_message envA 1 "hi" dbC).1 = dbC ∧
      ∃ msg, (send_message envA 1 "hi" dbC).2 =
        Except.error (PyFailure.valueError msg)) :=
  ⟨by decide, c9_inactive_session_rejected envA 1 "hi" dbC (by decide)⟩

/-- C10 (confirmed).  Truncation runs before the just-persisted user message
is dropped from the tail, so whenever the non-system history exceeds the
configured window the fresh model conversation is seeded with exactly
`max_conversation_history - 1` prior messages. -/
theorem c10_seed_is_window_minus_one (history : List (MessageRole × String))
    (h : max_conversation_history <
      (history.filter (fun m => m.1 ≠ MessageRole.system)).length) :
    (model_seed history).length = max_conversation_history - 1 := by
  have hmem : ∀ m ∈ history.filter (fun m => m.1 ≠ MessageRole.system),
      m.1 ≠ MessageRole.system := by
    intro m hm
    exact of_decide_eq_true (List.mem_filter.mp hm).2
  have hsub : ∀ m ∈ ((history.filter (fun m => m.1 ≠ MessageRole.system)).drop
      ((history.filter (fun m => m.1 ≠ MessageRole.system)).length -
        max_conversation_history)).dropLast,
      m.1 ≠ MessageRole.system := by
    intro m hm
    exact hmem m (List.drop_subset _ _ (List.dropLast_subset _ hm))
  simp only [model_seed, truncate_history, Option.getD]
  rw [if_neg (by omega)]
  rw [bhfm_length _ hsub, List.length_dropLast, List.length_drop]
  omega

/-- C10 (witness): with 52 non-system messages the seed has 49 entries. -/
theorem c10_seed_witness :
    max_conversation_history <
      (history52.filter (fun m => m.1 ≠ MessageRole.system)).length ∧
    (model_seed history52).length = max_conversation_history - 1 :=
  ⟨by decide, c10_seed_is_window_minus_one history52 (by decide)⟩

end DisciteAI
